import Mathlib

/-!
Verification of the authentication/authorization core of the
icafe-registration backend (Go), shallowly embedded in Lean 4.

The embedding follows the Go sources:
  - internal/domain/user.go        (roles, permissions, User, helpers)
  - internal/domain errors         (sentinel error values, AppError taxonomy)
  - internal/usecase/auth_usecase.go (Register, Login, RefreshToken,
    ValidateToken, generateAccessToken, generateRefreshToken, validateToken)
  - internal/usecase user usecase  (ChangePassword, Create, Update, UpdateRole)
  - internal/repository/mongodb    (userRepository: Create, GetBy*, Update,
    UpdateLastLogin over the users collection with unique indexes)
  - internal/delivery/http/middleware.go (JWTAuthMiddleware,
    RequirePermission, RequireRole)

Modelling conventions:
  - Go strings stay `String`; `type Role string` and `type Permission string`
    become abbreviations of `String`.
  - bcrypt is modelled as an ideal salted hash: `GenerateFromPassword` pairs
    the per-call salt with the plaintext, `CompareHashAndPassword` checks the
    plaintext.  This captures exactly what the Go code observes of bcrypt:
    hashing the same plaintext twice with different salts gives different
    records, and verification succeeds precisely on the original plaintext.
  - JWT is modelled as an ideal MAC: a well-formed token carries its header
    algorithm, its claims and a signature value; signing embeds the key, the
    algorithm and the payload, so signature comparison is equality.  A token
    string that does not parse at all is `TokenString.malformed`.
  - Mongo is modelled as an in-memory list of users; the unique indexes on
    username, phone and (sparse) email are enforced by the modelled
    repository `Create`/`Update`, which report `Err.alreadyExists` exactly
    where the Go code maps `mongo.IsDuplicateKeyError` to
    `domain.ErrAlreadyExists`.
  - The auth usecase depends only on the `domain.UserRepository` interface,
    so it is embedded parametrically over a record of store operations with
    explicit state threading, exactly as the Go usecase depends on the
    interface and not on the mongo implementation.
  - Wall-clock time is an explicit `Nat` (unix seconds) parameter.
-/

/-- Go `type Role string` (internal/domain/user.go). -/
abbrev Role := String

/-- Go `type Permission string` (internal/domain/user.go). -/
abbrev Permission := String

def RoleAdmin : Role := "admin"
def RoleManager : Role := "manager"
def RoleSale : Role := "sale"
def RoleStaff : Role := "staff"
def RoleCustomer : Role := "customer"

def PermissionReadRegistration : Permission := "registration:read"
def PermissionWriteRegistration : Permission := "registration:write"
def PermissionDeleteRegistration : Permission := "registration:delete"
def PermissionReadFile : Permission := "file:read"
def PermissionWriteFile : Permission := "file:write"
def PermissionDeleteFile : Permission := "file:delete"
def PermissionManageUser : Permission := "user:manage"

/-- The static role-to-permission table `domain.RolePermissions`, as an
association list (the Go map is only read through `GetPermissionsForRole`). -/
def RolePermissions : List (Role × List Permission) :=
  [ (RoleAdmin,
      [PermissionReadRegistration, PermissionWriteRegistration,
       PermissionDeleteRegistration, PermissionReadFile, PermissionWriteFile,
       PermissionDeleteFile, PermissionManageUser]),
    (RoleManager,
      [PermissionReadRegistration, PermissionWriteRegistration,
       PermissionDeleteRegistration, PermissionReadFile, PermissionWriteFile,
       PermissionDeleteFile]),
    (RoleSale,
      [PermissionReadRegistration, PermissionWriteRegistration,
       PermissionReadFile, PermissionWriteFile]),
    (RoleStaff,
      [PermissionReadRegistration, PermissionWriteRegistration,
       PermissionReadFile, PermissionWriteFile]),
    (RoleCustomer,
      [PermissionReadRegistration, PermissionReadFile]) ]

/-- `domain.GetPermissionsForRole`: table lookup, empty list for an unknown
role. -/
def GetPermissionsForRole (role : Role) : List Permission :=
  match RolePermissions.find? (fun rp => rp.1 == role) with
  | some rp => rp.2
  | none => []

/-- Ideal model of a bcrypt hash record: the salt randomized per call plus the
plaintext it was computed from.  The Go code stores it as an opaque string and
only ever passes it back to bcrypt. -/
structure BcryptHash where
  salt : Nat
  plaintext : String
deriving DecidableEq, Repr

/-- `bcrypt.GenerateFromPassword` (the salt argument models the random salt
drawn inside bcrypt on each call). -/
def GenerateFromPassword (salt : Nat) (password : String) : BcryptHash :=
  { salt := salt, plaintext := password }

/-- `bcrypt.CompareHashAndPassword`: true exactly when the plaintext matches
the one the record was generated from. -/
def CompareHashAndPassword (hash : BcryptHash) (password : String) : Bool :=
  hash.plaintext == password

/-- `usecase.HashPassword` wraps `bcrypt.GenerateFromPassword` with the
default cost. -/
def HashPassword (salt : Nat) (password : String) : BcryptHash :=
  GenerateFromPassword salt password

/-- JWT signing algorithms relevant to the code: the HMAC family accepted by
`validateToken`'s keyfunc, plus non-HMAC ones it rejects. -/
inductive Alg
  | HS256
  | HS384
  | HS512
  | RS256
  | NoneAlg
deriving DecidableEq, Repr

/-- The keyfunc check `token.Method.(*jwt.SigningMethodHMAC)`. -/
def Alg.isHMAC : Alg → Bool
  | Alg.HS256 => true
  | Alg.HS384 => true
  | Alg.HS512 => true
  | _ => false

/-- `usecase.JWTClaims`: the custom claims plus the registered claims the code
sets (ExpiresAt, IssuedAt, Subject), with times in unix seconds. -/
structure JWTClaims where
  userID : String
  username : String
  email : String
  role : Role
  permissions : List Permission
  expiresAt : Nat
  issuedAt : Nat
  subject : String
deriving DecidableEq, Repr

/-- Ideal MAC value: signing embeds the key, the header algorithm and the
payload, so two signatures are equal exactly when key, algorithm and payload
all agree (collision-free, unforgeable-by-equality HMAC idealization). -/
structure Signature where
  key : String
  alg : Alg
  payload : JWTClaims
deriving DecidableEq, Repr

/-- HMAC signing over the token header and claims with the symmetric key. -/
def hmacSign (key : String) (alg : Alg) (claims : JWTClaims) : Signature :=
  { key := key, alg := alg, payload := claims }

/-- A parsed JWT: header algorithm, claims, attached signature. -/
structure Token where
  alg : Alg
  claims : JWTClaims
  sig : Signature
deriving DecidableEq, Repr

/-- A token string: either structurally malformed (fails `jwt.ParseWithClaims`
outright) or a well-formed serialized token. -/
inductive TokenString
  | malformed (raw : String)
  | wellFormed (t : Token)
deriving DecidableEq, Repr

/-- The closed error enumeration: the sentinel values of
`internal/domain/errors.go`, the `AppError` taxonomy values of the auth
domain file, and `unexpected` for any other error a collaborator returns
(connectivity failures and the like). -/
inductive Err
  | notFound
  | alreadyExists
  | emailAlreadyExists
  | phoneAlreadyExists
  | invalidID
  | invalidCredentials
  | invalidToken
  | userInactive
  | unauthorized
  | forbidden
  | unexpected (msg : String)
deriving DecidableEq, Repr

/-- `config.JWTConfig`: secret key, access-token TTL in minutes,
refresh-token TTL in hours. -/
structure JWTConfig where
  secretKey : String
  accessTokenDuration : Nat
  refreshTokenDuration : Nat
deriving DecidableEq, Repr

/-- `domain.User` (timestamps other than lastLogin omitted: no modelled code
path reads them). -/
structure User where
  id : String
  username : String
  email : String
  phone : String
  password : BcryptHash
  fullName : String
  role : Role
  permissions : List Permission
  customPermissions : List Permission
  isActive : Bool
  lastLogin : Option Nat
deriving DecidableEq, Repr

/-- `User.HasPermission`: membership in role-based or custom permissions. -/
def User.HasPermission (u : User) (p : Permission) : Bool :=
  u.permissions.contains p || u.customPermissions.contains p

/-- `User.GetAllPermissions`: role-based plus custom permissions,
deduplicated.  The Go version deduplicates through a map whose iteration
order is unspecified; the model fixes the first-occurrence order, membership
is identical. -/
def User.GetAllPermissions (u : User) : List Permission :=
  (u.permissions ++ u.customPermissions).eraseDups

/-- `domain.TokenClaims`: the claims surfaced by `ValidateToken`. -/
structure TokenClaims where
  userID : String
  username : String
  email : String
  role : Role
  permissions : List Permission
deriving DecidableEq, Repr

/-- `domain.RegisterRequest`. -/
structure RegisterRequest where
  username : String
  password : String
  phone : String
  fullName : String
deriving DecidableEq, Repr

/-- `domain.LoginRequest`. -/
structure LoginRequest where
  username : String
  password : String
deriving DecidableEq, Repr

/-- `domain.ChangePasswordRequest`. -/
structure ChangePasswordRequest where
  oldPassword : String
  newPassword : String
deriving DecidableEq, Repr

/-- `domain.UserInfo` as embedded in `domain.LoginResponse`. -/
structure UserInfo where
  id : String
  username : String
  email : String
  fullName : String
  role : Role
  permissions : List Permission
deriving DecidableEq, Repr

/-- `domain.LoginResponse`. -/
structure LoginResponse where
  accessToken : TokenString
  refreshToken : TokenString
  tokenType : String
  expiresIn : Nat
  user : UserInfo
deriving DecidableEq, Repr

/-- `authUsecase.generateAccessToken`: claims carry the user's stored
role-based `Permissions` field, expiry is now plus `AccessTokenDuration`
minutes, header algorithm HS256, signed with the configured secret key. -/
def generateAccessToken (cfg : JWTConfig) (now : Nat) (user : User) : TokenString :=
  let claims : JWTClaims :=
    { userID := user.id
      username := user.username
      email := user.email
      role := user.role
      permissions := user.permissions
      expiresAt := now + cfg.accessTokenDuration * 60
      issuedAt := now
      subject := user.id }
  TokenString.wellFormed
    { alg := Alg.HS256, claims := claims, sig := hmacSign cfg.secretKey Alg.HS256 claims }

/-- `authUsecase.generateRefreshToken`: only UserID, Username and the
registered claims are set; Email, Role and Permissions stay at their zero
values.  Expiry is now plus `RefreshTokenDuration` hours; same key and
algorithm as access tokens. -/
def generateRefreshToken (cfg : JWTConfig) (now : Nat) (user : User) : TokenString :=
  let claims : JWTClaims :=
    { userID := user.id
      username := user.username
      email := ""
      role := ""
      permissions := []
      expiresAt := now + cfg.refreshTokenDuration * 3600
      issuedAt := now
      subject := user.id }
  TokenString.wellFormed
    { alg := Alg.HS256, claims := claims, sig := hmacSign cfg.secretKey Alg.HS256 claims }

/-- `authUsecase.validateToken`: parse, keyfunc rejects non-HMAC methods,
signature is recomputed with the configured key and compared, and the
registered `exp` claim is validated (jwt v5 accepts a token exactly while
`now < exp`).  Every failure returns `domain.ErrInvalidToken`. -/
def validateToken (key : String) (now : Nat) : TokenString → Except Err JWTClaims
  | TokenString.malformed _ => Except.error Err.invalidToken
  | TokenString.wellFormed t =>
    if t.alg.isHMAC then
      if t.sig = hmacSign key t.alg t.claims then
        if now < t.claims.expiresAt then
          Except.ok t.claims
        else Except.error Err.invalidToken
      else Except.error Err.invalidToken
    else Except.error Err.invalidToken

/-- `authUsecase.ValidateToken`: the public wrapper copying the verified
claims into `domain.TokenClaims`. -/
def ValidateToken (key : String) (now : Nat) (ts : TokenString) : Except Err TokenClaims :=
  match validateToken key now ts with
  | Except.error e => Except.error e
  | Except.ok c =>
    Except.ok
      { userID := c.userID, username := c.username, email := c.email,
        role := c.role, permissions := c.permissions }

/-- The `domain.UserRepository` interface: each operation consumes and
returns abstract store state `σ` alongside its Go return values.
`create` returns the stored user because the Go method mutates the `*User`
it is handed (assigning ID, activity flag and role permissions) and the
caller keeps using it. -/
structure UserRepository (σ : Type) where
  getByUsername : String → σ → Except Err User × σ
  getByPhone : String → σ → Except Err User × σ
  getByID : String → σ → Except Err User × σ
  create : User → σ → Except Err User × σ
  update : String → User → σ → Except Err Unit × σ
  updateLastLogin : String → σ → Except Err Unit × σ

/-- The user document the `Register` usecase builds before persisting:
default role `sale` with that role's permission list, active, no email, no
custom permissions. -/
def registerNewUser (salt : Nat) (req : RegisterRequest) : User :=
  { id := ""
    username := req.username
    email := ""
    phone := req.phone
    password := HashPassword salt req.password
    fullName := req.fullName
    role := RoleSale
    permissions := GetPermissionsForRole RoleSale
    customPermissions := []
    isActive := true
    lastLogin := Option.none }

/-- `authUsecase.Register`: username pre-check, phone pre-check, hash the
password, build the user with the default role, persist.  A lookup error
other than `ErrNotFound` propagates; a found user turns into
`ErrAlreadyExists` (username) or `ErrPhoneAlreadyExists` (phone); the
`create` error, if any, propagates unchanged. -/
def Register {σ : Type} (repo : UserRepository σ) (salt : Nat)
    (req : RegisterRequest) (s : σ) : Except Err User × σ :=
  match repo.getByUsername req.username s with
  | (Except.ok _, s1) => (Except.error Err.alreadyExists, s1)
  | (Except.error e, s1) =>
    if e = Err.notFound then
      match repo.getByPhone req.phone s1 with
      | (Except.ok _, s2) => (Except.error Err.phoneAlreadyExists, s2)
      | (Except.error e2, s2) =>
        if e2 = Err.notFound then
          match repo.create (registerNewUser salt req) s2 with
          | (Except.ok created, s3) => (Except.ok created, s3)
          | (Except.error e3, s3) => (Except.error e3, s3)
        else (Except.error e2, s2)
    else (Except.error e, s1)

/-- The `domain.UserInfo` embedded in a login/refresh response. -/
def mkUserInfo (user : User) : UserInfo :=
  { id := user.id, username := user.username, email := user.email,
    fullName := user.fullName, role := user.role,
    permissions := user.permissions }

/-- `authUsecase.Login`, instrumented: the second component records whether
`bcrypt.CompareHashAndPassword` was invoked on this run.  Lookup miss maps to
`ErrInvalidCredentials`; other lookup errors propagate; an inactive user is
rejected with `ErrUserInactive` before the password is compared; a password
mismatch maps to `ErrInvalidCredentials`; on success both tokens are issued
and `UpdateLastLogin` is fired with its result discarded. -/
def LoginT {σ : Type} (repo : UserRepository σ) (cfg : JWTConfig) (now : Nat)
    (req : LoginRequest) (s : σ) : (Except Err LoginResponse × σ) × Bool :=
  match repo.getByUsername req.username s with
  | (Except.error e, s1) =>
    if e = Err.notFound then ((Except.error Err.invalidCredentials, s1), false)
    else ((Except.error e, s1), false)
  | (Except.ok user, s1) =>
    if user.isActive then
      if CompareHashAndPassword user.password req.password then
        let s2 := (repo.updateLastLogin user.id s1).2
        ((Except.ok
            { accessToken := generateAccessToken cfg now user
              refreshToken := generateRefreshToken cfg now user
              tokenType := "Bearer"
              expiresIn := cfg.accessTokenDuration * 60
              user := mkUserInfo user }, s2), true)
      else ((Except.error Err.invalidCredentials, s1), true)
    else ((Except.error Err.userInactive, s1), false)

/-- `authUsecase.Login`: the uninstrumented result. -/
def Login {σ : Type} (repo : UserRepository σ) (cfg : JWTConfig) (now : Nat)
    (req : LoginRequest) (s : σ) : Except Err LoginResponse × σ :=
  (LoginT repo cfg now req s).1

/-- `authUsecase.RefreshToken`: validate the refresh token (any failure maps
to `ErrInvalidToken`), re-fetch the user by the embedded ID (any `GetByID`
error also maps to `ErrInvalidToken`), require the user active, then issue a
fresh access/refresh pair. -/
def RefreshToken {σ : Type} (repo : UserRepository σ) (cfg : JWTConfig)
    (now : Nat) (refreshToken : TokenString) (s : σ) :
    Except Err LoginResponse × σ :=
  match validateToken cfg.secretKey now refreshToken with
  | Except.error _ => (Except.error Err.invalidToken, s)
  | Except.ok claims =>
    match repo.getByID claims.userID s with
    | (Except.error _, s1) => (Except.error Err.invalidToken, s1)
    | (Except.ok user, s1) =>
      if user.isActive then
        (Except.ok
          { accessToken := generateAccessToken cfg now user
            refreshToken := generateRefreshToken cfg now user
            tokenType := "Bearer"
            expiresIn := cfg.accessTokenDuration * 60
            user := mkUserInfo user }, s1)
      else (Except.error Err.userInactive, s1)

/-- `userUsecase.ChangePassword`: fetch the user by ID, verify the old
password (mismatch maps to `ErrInvalidCredentials`), hash the new password
into the in-memory user, and hand that user to `UserRepository.Update`. -/
def ChangePassword {σ : Type} (repo : UserRepository σ) (saltNew : Nat)
    (id : String) (req : ChangePasswordRequest) (s : σ) : Except Err Unit × σ :=
  match repo.getByID id s with
  | (Except.error e, s1) => (Except.error e, s1)
  | (Except.ok user, s1) =>
    if CompareHashAndPassword user.password req.oldPassword then
      repo.update id { user with password := HashPassword saltNew req.newPassword } s1
    else (Except.error Err.invalidCredentials, s1)

/-- The users collection of the mongo database model. -/
structure DB where
  users : List User
deriving DecidableEq, Repr

/-- `primitive.ObjectIDFromHex` succeeds exactly on 24 hexadecimal
characters. -/
def isValidObjectID (s : String) : Bool :=
  s.length == 24 &&
    s.toList.all (fun c =>
      (48 ≤ c.toNat && c.toNat ≤ 57) || (97 ≤ c.toNat && c.toNat ≤ 102) ||
        (65 ≤ c.toNat && c.toNat ≤ 70))

/-- Whether inserting `u` into `db` violates one of the unique indexes of the
users collection: username, phone, or email (sparse, so only when the email
is present). -/
def duplicateKeyOnInsert (db : DB) (u : User) : Bool :=
  db.users.any (fun v =>
    v.username == u.username || v.phone == u.phone ||
      (!(u.email == "") && v.email == u.email))

/-- `userRepository.Create` (mongodb): assign a fresh ObjectID, force the
account active, overwrite `Permissions` from the role table, insert; a
duplicate-key error from any unique index is mapped to
`domain.ErrAlreadyExists`. -/
def mongoUserCreate (newID : String) (user : User) (db : DB) :
    Except Err User × DB :=
  let u := { user with
               id := newID
               isActive := true
               permissions := GetPermissionsForRole user.role }
  if duplicateKeyOnInsert db u then (Except.error Err.alreadyExists, db)
  else (Except.ok u, { users := db.users ++ [u] })

/-- The `$set` document of `userRepository.Update` applied to a stored user:
email, phone, full name, role, permissions, custom permissions and activity
are written; username and — notably — the password hash are not part of the
update document. -/
def applyUpdateSet (stored incoming : User) : User :=
  { stored with
      email := incoming.email
      phone := incoming.phone
      fullName := incoming.fullName
      role := incoming.role
      permissions := incoming.permissions
      customPermissions := incoming.customPermissions
      isActive := incoming.isActive }

/-- `userRepository.Update` (mongodb): reject an invalid ObjectID, recompute
`Permissions` from the role, apply the `$set` document to the matching
document; a duplicate-key violation (phone or present email colliding with a
different document) maps to `domain.ErrAlreadyExists`, no match maps to
`domain.ErrNotFound`. -/
def mongoUserUpdate (id : String) (user : User) (db : DB) :
    Except Err Unit × DB :=
  if isValidObjectID id then
    let incoming := { user with permissions := GetPermissionsForRole user.role }
    match db.users.find? (fun v => v.id == id) with
    | Option.none => (Except.error Err.notFound, db)
    | some _ =>
      if db.users.any (fun v =>
          !(v.id == id) &&
            (v.phone == incoming.phone ||
              (!(incoming.email == "") && v.email == incoming.email))) then
        (Except.error Err.alreadyExists, db)
      else
        (Except.ok (),
         { users := db.users.map (fun v =>
             if v.id == id then applyUpdateSet v incoming else v) })
  else (Except.error Err.invalidID, db)

/-- The mongo-backed `domain.UserRepository` instance (`newID` models the
fresh ObjectID drawn in `Create`, `now` the wall clock used by
`UpdateLastLogin`). -/
def mongoRepo (newID : String) (now : Nat) : UserRepository DB :=
  { getByUsername := fun uname db =>
      match db.users.find? (fun v => v.username == uname) with
      | some u => (Except.ok u, db)
      | Option.none => (Except.error Err.notFound, db)
    getByPhone := fun phone db =>
      match db.users.find? (fun v => v.phone == phone) with
      | some u => (Except.ok u, db)
      | Option.none => (Except.error Err.notFound, db)
    getByID := fun id db =>
      if isValidObjectID id then
        match db.users.find? (fun v => v.id == id) with
        | some u => (Except.ok u, db)
        | Option.none => (Except.error Err.notFound, db)
      else (Except.error Err.invalidID, db)
    create := mongoUserCreate newID
    update := mongoUserUpdate
    updateLastLogin := fun id db =>
      if isValidObjectID id then
        (Except.ok (),
         { users := db.users.map (fun v =>
             if v.id == id then { v with lastLogin := some now } else v) })
      else (Except.error Err.invalidID, db) }

/-- Outcome of a gin middleware: abort with an HTTP status, or proceed with
the recovered claims stored in the request context. -/
inductive MwResult
  | abort (status : Nat) (message : String)
  | proceed (claims : TokenClaims)
deriving DecidableEq, Repr

/-- The Authorization header after `strings.SplitN(header, " ", 2)`:
absent, present but not of the two-part shape, or a scheme plus the token
part. -/
inductive AuthHeader
  | missing
  | notTwoParts (raw : String)
  | twoParts (scheme : String) (tok : TokenString)
deriving Repr

/-- `strings.EqualFold` restricted to ASCII (the scheme comparison only ever
sees ASCII): two characters fold-match when equal or when one is the
uppercase letter of the other. -/
def charEqFold (a b : Char) : Bool :=
  a.toNat == b.toNat ||
    (65 ≤ a.toNat && a.toNat ≤ 90 && a.toNat + 32 == b.toNat) ||
    (65 ≤ b.toNat && b.toNat ≤ 90 && b.toNat + 32 == a.toNat)

/-- `strings.EqualFold` on whole strings (ASCII case folding). -/
def EqualFold (a b : String) : Bool :=
  a.length == b.length &&
    (a.toList.zip b.toList).all (fun p => charEqFold p.1 p.2)

/-- `JWTAuthMiddleware`: 401 when the header is absent or not of the
`Bearer <token>` shape (scheme compared case-insensitively), 401 when
`ValidateToken` fails, otherwise the claims are placed in the context and the
chain proceeds. -/
def JWTAuthMiddleware (key : String) (now : Nat) : AuthHeader → MwResult
  | AuthHeader.missing => MwResult.abort 401 "Authorization header required"
  | AuthHeader.notTwoParts _ => MwResult.abort 401 "Invalid authorization format"
  | AuthHeader.twoParts scheme tok =>
    if EqualFold scheme "Bearer" then
      match ValidateToken key now tok with
      | Except.error _ => MwResult.abort 401 "Invalid or expired token"
      | Except.ok claims => MwResult.proceed claims
    else MwResult.abort 401 "Invalid authorization format"

/-- Outcome of an authorization-gate middleware. -/
inductive GateResult
  | pass
  | forbidden (message : String)
deriving DecidableEq, Repr

/-- `RequirePermission`: membership of the required permission in the
token-derived permission list stored in the context. -/
def RequirePermission (required : Permission) (perms : List Permission) : GateResult :=
  if perms.contains required then GateResult.pass
  else GateResult.forbidden "insufficient permissions"

/-- `RequireRole`: membership of the token-derived role in the allowed
roles. -/
def RequireRole (allowed : List Role) (role : Role) : GateResult :=
  if allowed.contains role then GateResult.pass
  else GateResult.forbidden "insufficient role"

/-- Decidable equality for `Except` results (Go error/value pairs are
compared value-wise throughout). -/
instance {ε α : Type} [DecidableEq ε] [DecidableEq α] : DecidableEq (Except ε α) := fun x y =>
  match x, y with
  | Except.error e, Except.error f =>
    if h : e = f then Decidable.isTrue (by rw [h])
    else Decidable.isFalse (fun hc => by cases hc; exact h rfl)
  | Except.ok a, Except.ok b =>
    if h : a = b then Decidable.isTrue (by rw [h])
    else Decidable.isFalse (fun hc => by cases hc; exact h rfl)
  | Except.error _, Except.ok _ => Decidable.isFalse (fun hc => Except.noConfusion hc)
  | Except.ok _, Except.error _ => Decidable.isFalse (fun hc => Except.noConfusion hc)

/-- A fixed JWT configuration for concrete runs: the env defaults of
`config.LoadConfig` (15-minute access tokens, 168-hour refresh tokens). -/
def cfg0 : JWTConfig :=
  { secretKey := "test-secret", accessTokenDuration := 15, refreshTokenDuration := 168 }

/-- An active user fixture. -/
def aliceActive : User :=
  { id := "0123456789abcdef01234567"
    username := "alice"
    email := "alice@example.com"
    phone := "0900000001"
    password := GenerateFromPassword 11 "right-horse"
    fullName := "Alice A"
    role := RoleManager
    permissions := GetPermissionsForRole RoleManager
    customPermissions := []
    isActive := true
    lastLogin := Option.none }

/-- The spec §8 end-to-end registration request for carol. -/
def carolReq : RegisterRequest :=
  { username := "carol", password := "s3cret!", phone := "0900000099", fullName := "Carol C" }

/-- Fresh ObjectID handed to the repository for carol's insert. -/
def carolOID : String := "65a1b2c3d4e5f60718293a4b"

/-- Carol's registration against an empty users collection. -/
def carolRegister : Except Err User × DB :=
  Register (mongoRepo carolOID 1000) 5 carolReq { users := [] }

/-- Carol's login right after registering. -/
def carolLogin : Except Err LoginResponse × DB :=
  Login (mongoRepo carolOID 1000) cfg0 1000
    { username := "carol", password := "s3cret!" } carolRegister.2

/-- The verified claims of the access token carol's login returned. -/
def carolAccessClaims : Except Err TokenClaims :=
  match carolLogin.1 with
  | Except.ok resp => ValidateToken cfg0.secretKey 1000 resp.accessToken
  | Except.error e => Except.error e

/-- A customer with an admin-assigned custom permission. -/
def daveCustom : User :=
  { id := "65a1b2c3d4e5f60718293a4c"
    username := "dave"
    email := ""
    phone := "0900000002"
    password := GenerateFromPassword 3 "dave-pass"
    fullName := "Dave D"
    role := RoleCustomer
    permissions := GetPermissionsForRole RoleCustomer
    customPermissions := [PermissionManageUser]
    isActive := true
    lastLogin := Option.none }

/-- A user about to change their password. -/
def erinOID : String := "65a1b2c3d4e5f60718293a4d"

def erin : User :=
  { id := erinOID
    username := "erin"
    email := ""
    phone := "0900000003"
    password := GenerateFromPassword 7 "old-password"
    fullName := "Erin E"
    role := RoleStaff
    permissions := GetPermissionsForRole RoleStaff
    customPermissions := []
    isActive := true
    lastLogin := Option.none }

/-- ChangePassword run for erin with the correct old password. -/
def erinChange : Except Err Unit × DB :=
  ChangePassword (mongoRepo "ffffffffffffffffffffffff" 0) 9 erinOID
    { oldPassword := "old-password", newPassword := "new-password" }
    { users := [erin] }

/-- An inactive user whose stored hash verifies "correctpass". -/
def bobInactive : User :=
  { id := "65a1b2c3d4e5f60718293a4e"
    username := "bob"
    email := ""
    phone := "0900000004"
    password := GenerateFromPassword 2 "correctpass"
    fullName := "Bob B"
    role := RoleSale
    permissions := GetPermissionsForRole RoleSale
    customPermissions := []
    isActive := false
    lastLogin := Option.none }

/-- The same account, active (for the login-failure witness). -/
def bobActive : User := { bobInactive with isActive := true }

/-- A user registered concurrently with carol: same phone, different
username. -/
def frank : User :=
  { id := "65a1b2c3d4e5f60718293a4f"
    username := "frank"
    email := ""
    phone := "0900000099"
    password := GenerateFromPassword 1 "frank-pass"
    fullName := "Frank F"
    role := RoleSale
    permissions := GetPermissionsForRole RoleSale
    customPermissions := []
    isActive := true
    lastLogin := Option.none }

/-- Models the §5 check-then-act race: the uniqueness pre-checks read a
snapshot in which frank's concurrent registration is not yet visible, while
the insert runs against the collection where frank — holding carol's phone
number — already exists, so `InsertOne` raises the duplicate-key error. -/
def racedRepo : UserRepository Unit :=
  { getByUsername := fun _ x => (Except.error Err.notFound, x)
    getByPhone := fun _ x => (Except.error Err.notFound, x)
    getByID := fun _ x => (Except.error Err.notFound, x)
    create := fun u x =>
      ((mongoUserCreate "65a1b2c3d4e5f60718293a50" u { users := [frank] }).1, x)
    update := fun _ _ x => (Except.ok (), x)
    updateLastLogin := fun _ x => (Except.ok (), x) }

/-- A store whose every operation fails with an unexpected (connectivity)
error — neither `ErrNotFound` nor a duplicate-key signal. -/
def downRepo : UserRepository Unit :=
  { getByUsername := fun _ x => (Except.error (Err.unexpected "connection refused"), x)
    getByPhone := fun _ x => (Except.error (Err.unexpected "connection refused"), x)
    getByID := fun _ x => (Except.error (Err.unexpected "connection refused"), x)
    create := fun _ x => (Except.error (Err.unexpected "connection refused"), x)
    update := fun _ _ x => (Except.error (Err.unexpected "connection refused"), x)
    updateLastLogin := fun _ x => (Except.error (Err.unexpected "connection refused"), x) }

/-- The four failure modes of `validateToken` the spec names: structurally
malformed, non-accepted (non-HMAC) signing algorithm, signature that does not
verify under the configured key, or verification strictly after the
expires-at instant. -/
def tokenFailsChecks (key : String) (now : Nat) : TokenString → Prop
  | TokenString.malformed _ => True
  | TokenString.wellFormed t =>
    t.alg.isHMAC = false ∨ t.sig ≠ hmacSign key t.alg t.claims ∨
      t.claims.expiresAt < now

/-- C1: the claim says self-service Register assigns default role `customer`
so that Register→Login yields verified access-token claims with role
`customer` and permissions exactly registration:read and file:read.  The code
instead assigns `domain.RoleSale` (auth_usecase.go line 74), although the
repository's own API documentation specifies role `customer` with permissions
registration:read and file:read for this endpoint.  This theorem evaluates
the code at the spec's end-to-end input: the verified claims report role
`sale` with sale's four permissions, which differ from role `customer` and
its two permissions. -/
theorem register_then_login_reports_sale_claims :
    carolAccessClaims =
      Except.ok
        { userID := carolOID, username := "carol", email := "",
          role := RoleSale,
          permissions := [PermissionReadRegistration, PermissionWriteRegistration,
                          PermissionReadFile, PermissionWriteFile] } ∧
    RoleSale ≠ RoleCustomer ∧
    [PermissionReadRegistration, PermissionWriteRegistration,
     PermissionReadFile, PermissionWriteFile] ≠
      [PermissionReadRegistration, PermissionReadFile] := by
  decide

/-- C2: the claim says every freshly issued access token carries the
deduplicated union of role permissions and customPermissions, so each custom
permission is a member of the token's permission set.  `generateAccessToken`
instead copies the stored role-based `Permissions` field and never consults
`CustomPermissions` (`User.GetAllPermissions` is defined for that union but is
never called).  For a customer with custom permission user:manage, the fresh
token's verified permission set is exactly customer's role permissions and
does not contain user:manage, even though the union does. -/
theorem access_token_omits_custom_permissions :
    ValidateToken cfg0.secretKey 0 (generateAccessToken cfg0 0 daveCustom) =
      Except.ok
        { userID := "65a1b2c3d4e5f60718293a4c", username := "dave", email := "",
          role := RoleCustomer,
          permissions := [PermissionReadRegistration, PermissionReadFile] } ∧
    daveCustom.GetAllPermissions.contains PermissionManageUser = true ∧
    [PermissionReadRegistration, PermissionReadFile].contains PermissionManageUser
      = false := by
  decide

/-- C3: the claim says after a successful ChangePassword the persisted hash
verifies the new password and no longer the old one.  The usecase writes the
new hash only into the in-memory user; `userRepository.Update`'s `$set`
document omits the password field, so the stored document keeps the old
hash.  On a concrete run with the correct old password, ChangePassword
reports success, yet the stored user still verifies the old password and not
the new one. -/
theorem change_password_succeeds_but_hash_not_persisted :
    erinChange.1 = Except.ok () ∧
    ((erinChange.2).users.find? (fun v => v.id == erinOID)).map
        (fun v => (CompareHashAndPassword v.password "old-password",
                   CompareHashAndPassword v.password "new-password"))
      = some (true, false) := by
  decide

/-- C4 counterexample: the claim quantifies over every Login call in which
the user exists but the password does not match.  For an existing but
inactive user with a wrong password, Login returns `ErrUserInactive`, not
`ErrInvalidCredentials`, so the claim as stated fails; it holds once the
found user is required to be active. -/
theorem login_wrong_password_on_inactive_user_is_userInactive :
    (Login (mongoRepo "ffffffffffffffffffffffff" 0) cfg0 0
        { username := "bob", password := "wrongpass" } { users := [bobInactive] }).1
      = Except.error Err.userInactive ∧
    Err.userInactive ≠ Err.invalidCredentials := by
  decide

/-- C7 counterexample: the claim asserts that on a run ending in
`UserInactive` the password-hash comparison has still been performed.  In the
code the `isActive` check precedes the bcrypt comparison and returns
immediately, so for an inactive user with the CORRECT password Login ends in
`UserInactive` while the instrumented run records that
`CompareHashAndPassword` was never invoked. -/
theorem login_userInactive_without_password_comparison :
    (LoginT (mongoRepo "ffffffffffffffffffffffff" 0) cfg0 0
        { username := "bob", password := "correctpass" } { users := [bobInactive] }).1.1
      = Except.error Err.userInactive ∧
    (LoginT (mongoRepo "ffffffffffffffffffffffff" 0) cfg0 0
        { username := "bob", password := "correctpass" } { users := [bobInactive] }).2
      = false ∧
    CompareHashAndPassword bobInactive.password "correctpass" = true := by
  decide

/-- C8 counterexample: the claim says a phone conflict detected by the
storage layer's unique index surfaces to the Register caller as
`PhoneAlreadyExists`.  The mongo repository maps every duplicate-key error,
whichever index was violated, to `domain.ErrAlreadyExists`, and Register
passes the create error through unchanged: in the raced run where carol's
phone already belongs to frank, the caller receives `ErrAlreadyExists`, which
is a different value than `ErrPhoneAlreadyExists`. -/
theorem phone_conflict_at_persist_yields_already_exists :
    (Register racedRepo 5 carolReq ()).1 = Except.error Err.alreadyExists ∧
    carolReq.phone = frank.phone ∧
    carolReq.username ≠ frank.username ∧
    Err.alreadyExists ≠ Err.phoneAlreadyExists := by
  decide

/-- C9 counterexample: the claim says an unexpected store error (connectivity
failure, neither NotFound nor duplicate-key) surfaces from every AuthService
operation as an error distinct from all taxonomy values.  RefreshToken maps
ANY `GetByID` failure to `domain.ErrInvalidToken`: on a valid refresh token
with a store returning a connectivity error, the caller receives the taxonomy
value `ErrInvalidToken`. -/
theorem refresh_store_outage_reported_as_invalid_token :
    (downRepo.getByID aliceActive.id ()).1
      = Except.error (Err.unexpected "connection refused") ∧
    (RefreshToken downRepo cfg0 0 (generateRefreshToken cfg0 0 aliceActive) ()).1
      = Except.error Err.invalidToken := by
  decide

/-- C5: every token failure mode — structurally malformed input, a signing
algorithm outside the accepted HMAC family, a signature that does not verify
under the configured key, or verification strictly after the expires-at
instant — makes `validateToken` return exactly `ErrInvalidToken`; since the
result is always that single value, the caller is never told which check
failed. -/
theorem validate_token_collapses_all_failures (key : String) (now : Nat)
    (ts : TokenString) (h : tokenFailsChecks key now ts) :
    validateToken key now ts = Except.error Err.invalidToken := by
  cases ts with
  | malformed raw => rfl
  | wellFormed t =>
    simp only [validateToken]
    split_ifs with h1 h2 h3
    · rcases h with h | h | h
      · rw [h] at h1
        exact absurd h1 (by simp)
      · exact absurd h2 h
      · omega
    · rfl
    · rfl
    · rfl

/-- Witness for C5 at a concrete malformed token. -/
theorem validate_token_collapses_all_failures_witness :
    tokenFailsChecks "test-secret" 0 (TokenString.malformed "not-a-jwt") ∧
    validateToken "test-secret" 0 (TokenString.malformed "not-a-jwt")
      = Except.error Err.invalidToken :=
  ⟨trivial,
   validate_token_collapses_all_failures "test-secret" 0
     (TokenString.malformed "not-a-jwt") trivial⟩

/-- C6: round trip — verifying an access token issued for a user, with the
same secret key, at any instant strictly before the token's TTL elapses,
succeeds and returns claims equal to the issued ones (userID, username,
email, role, permission set). -/
theorem access_token_roundtrip (cfg : JWTConfig) (user : User)
    (tIssue tVerify : Nat)
    (h : tVerify < tIssue + cfg.accessTokenDuration * 60) :
    ValidateToken cfg.secretKey tVerify (generateAccessToken cfg tIssue user) =
      Except.ok
        { userID := user.id, username := user.username, email := user.email,
          role := user.role, permissions := user.permissions } := by
  simp [ValidateToken, generateAccessToken, validateToken, Alg.isHMAC, h]

/-- Witness for C6: alice's token issued at 0 verifies at 100 with the
issued claims. -/
theorem access_token_roundtrip_witness :
    (100 : Nat) < 0 + cfg0.accessTokenDuration * 60 ∧
    ValidateToken cfg0.secretKey 100 (generateAccessToken cfg0 0 aliceActive) =
      Except.ok
        { userID := aliceActive.id, username := aliceActive.username,
          email := aliceActive.email, role := aliceActive.role,
          permissions := aliceActive.permissions } :=
  ⟨by decide, access_token_roundtrip cfg0 aliceActive 0 100 (by decide)⟩

/-- C4 (amended): for Login calls the two failure modes — no user with the
given username, and a found ACTIVE user whose password does not match —
produce the identical externally-visible error value `ErrInvalidCredentials`,
so the two runs are indistinguishable to the caller by result value. -/
theorem login_failure_modes_collapse {σ : Type} (repo : UserRepository σ)
    (cfg : JWTConfig) (now : Nat) (s : σ) (reqA reqB : LoginRequest) (u : User)
    (hA : (repo.getByUsername reqA.username s).1 = Except.error Err.notFound)
    (hB : (repo.getByUsername reqB.username s).1 = Except.ok u)
    (hActive : u.isActive = true)
    (hPw : CompareHashAndPassword u.password reqB.password = false) :
    (Login repo cfg now reqA s).1 = Except.error Err.invalidCredentials ∧
    (Login repo cfg now reqB s).1 = Except.error Err.invalidCredentials := by
  constructor
  · rcases hEq : repo.getByUsername reqA.username s with ⟨r, s1⟩
    rw [hEq] at hA
    have hr : r = Except.error Err.notFound := by simpa using hA
    subst hr
    simp [Login, LoginT, hEq]
  · rcases hEq : repo.getByUsername reqB.username s with ⟨r, s1⟩
    rw [hEq] at hB
    have hr : r = Except.ok u := by simpa using hB
    subst hr
    simp [Login, LoginT, hEq, hActive, hPw]

/-- Witness for C4 (amended): with only the active bob stored, a login for an
unknown username and a login for bob with a wrong password both return
`ErrInvalidCredentials`. -/
theorem login_failure_modes_collapse_witness :
    (Login (mongoRepo "ffffffffffffffffffffffff" 0) cfg0 0
        { username := "nosuchuser", password := "anything" } { users := [bobActive] }).1
      = Except.error Err.invalidCredentials ∧
    (Login (mongoRepo "ffffffffffffffffffffffff" 0) cfg0 0
        { username := "bob", password := "wrongpass" } { users := [bobActive] }).1
      = Except.error Err.invalidCredentials :=
  login_failure_modes_collapse (mongoRepo "ffffffffffffffffffffffff" 0) cfg0 0
    { users := [bobActive] }
    { username := "nosuchuser", password := "anything" }
    { username := "bob", password := "wrongpass" } bobActive
    (by decide) (by decide) (by decide) (by decide)

/-- C7 (amended): for every Login call that finds an inactive user, the
result is `ErrUserInactive` regardless of the supplied password, and the
password-hash comparison is NOT performed on such a run — the activity check
returns strictly before `CompareHashAndPassword` is reached. -/
theorem login_inactive_precedes_password_verification {σ : Type}
    (repo : UserRepository σ) (cfg : JWTConfig) (now : Nat) (s : σ)
    (req : LoginRequest) (u : User)
    (hFound : (repo.getByUsername req.username s).1 = Except.ok u)
    (hInactive : u.isActive = false) :
    (LoginT repo cfg now req s).1.1 = Except.error Err.userInactive ∧
    (LoginT repo cfg now req s).2 = false := by
  rcases hEq : repo.getByUsername req.username s with ⟨r, s1⟩
  rw [hEq] at hFound
  have hr : r = Except.ok u := by simpa using hFound
  subst hr
  constructor
  · simp [LoginT, hEq, hInactive]
  · simp [LoginT, hEq, hInactive]

/-- Witness for C7 (amended): bob inactive, correct password — Login reports
`ErrUserInactive` and the instrumented run shows no hash comparison. -/
theorem login_inactive_precedes_password_verification_witness :
    (LoginT (mongoRepo "ffffffffffffffffffffffff" 0) cfg0 0
        { username := "bob", password := "correctpass" } { users := [bobInactive] }).1.1
      = Except.error Err.userInactive ∧
    (LoginT (mongoRepo "ffffffffffffffffffffffff" 0) cfg0 0
        { username := "bob", password := "correctpass" } { users := [bobInactive] }).2
      = false :=
  login_inactive_precedes_password_verification
    (mongoRepo "ffffffffffffffffffffffff" 0) cfg0 0 { users := [bobInactive] }
    { username := "bob", password := "correctpass" } bobInactive
    (by decide) (by decide)

/-- C8 (amended): when both uniqueness pre-checks pass and the storage layer
then reports a duplicate-key conflict, Register surfaces exactly
`ErrAlreadyExists` — the same value a failing username pre-check produces —
for EVERY conflicting field (the mongo repository maps any duplicate-key
error, including a phone-index violation, to `ErrAlreadyExists`, never to
`ErrPhoneAlreadyExists`). -/
theorem register_storage_conflict_surfaces_already_exists {σ : Type}
    (repo : UserRepository σ) (salt : Nat) (req : RegisterRequest) (s : σ)
    (h1 : (repo.getByUsername req.username s).1 = Except.error Err.notFound)
    (h2 : (repo.getByPhone req.phone (repo.getByUsername req.username s).2).1
          = Except.error Err.notFound)
    (h3 : (repo.create (registerNewUser salt req)
            (repo.getByPhone req.phone (repo.getByUsername req.username s).2).2).1
          = Except.error Err.alreadyExists) :
    (Register repo salt req s).1 = Except.error Err.alreadyExists := by
  rcases e1 : repo.getByUsername req.username s with ⟨r1, s1⟩
  rw [e1] at h1 h2 h3
  have hr1 : r1 = Except.error Err.notFound := by simpa using h1
  subst hr1
  rcases e2 : repo.getByPhone req.phone s1 with ⟨r2, s2⟩
  rw [e2] at h2 h3
  have hr2 : r2 = Except.error Err.notFound := by simpa using h2
  subst hr2
  rcases e3 : repo.create (registerNewUser salt req) s2 with ⟨r3, s3⟩
  rw [e3] at h3
  have hr3 : r3 = Except.error Err.alreadyExists := by simpa using h3
  subst hr3
  simp [Register, e1, e2, e3]

/-- Witness for C8 (amended) at the raced run: pre-checks pass on the stale
snapshot, the insert hits frank's phone index, Register returns
`ErrAlreadyExists`. -/
theorem register_storage_conflict_surfaces_already_exists_witness :
    (Register racedRepo 5 carolReq ()).1 = Except.error Err.alreadyExists :=
  register_storage_conflict_surfaces_already_exists racedRepo 5 carolReq ()
    (by decide) (by decide) (by decide)

/-- C9 (amended): an unexpected store error (neither `ErrNotFound` nor a
duplicate-key signal) propagates from Register and Login as the opaque value
itself, which is distinct from every taxonomy value; RefreshToken however
collapses such a store failure on its user re-fetch into the taxonomy value
`ErrInvalidToken`. -/
theorem unexpected_store_error_propagation {σ : Type} (repo : UserRepository σ)
    (cfg : JWTConfig) (now salt : Nat) (req : RegisterRequest)
    (lreq : LoginRequest) (ts : TokenString) (c : JWTClaims) (s : σ) (msg : String)
    (hReg : (repo.getByUsername req.username s).1 = Except.error (Err.unexpected msg))
    (hLog : (repo.getByUsername lreq.username s).1 = Except.error (Err.unexpected msg))
    (hTok : validateToken cfg.secretKey now ts = Except.ok c)
    (hID : (repo.getByID c.userID s).1 = Except.error (Err.unexpected msg)) :
    (Register repo salt req s).1 = Except.error (Err.unexpected msg) ∧
    (Login repo cfg now lreq s).1 = Except.error (Err.unexpected msg) ∧
    (RefreshToken repo cfg now ts s).1 = Except.error Err.invalidToken ∧
    (∀ m : String,
      Err.unexpected m ≠ Err.invalidCredentials ∧
      Err.unexpected m ≠ Err.invalidToken ∧
      Err.unexpected m ≠ Err.userInactive ∧
      Err.unexpected m ≠ Err.alreadyExists ∧
      Err.unexpected m ≠ Err.phoneAlreadyExists ∧
      Err.unexpected m ≠ Err.emailAlreadyExists) := by
  refine ⟨?_, ?_, ?_, ?_⟩
  · rcases e1 : repo.getByUsername req.username s with ⟨r1, s1⟩
    rw [e1] at hReg
    have hr1 : r1 = Except.error (Err.unexpected msg) := by simpa using hReg
    subst hr1
    simp [Register, e1]
  · rcases e1 : repo.getByUsername lreq.username s with ⟨r1, s1⟩
    rw [e1] at hLog
    have hr1 : r1 = Except.error (Err.unexpected msg) := by simpa using hLog
    subst hr1
    simp [Login, LoginT, e1]
  · rcases e1 : repo.getByID c.userID s with ⟨r1, s1⟩
    rw [e1] at hID
    have hr1 : r1 = Except.error (Err.unexpected msg) := by simpa using hID
    subst hr1
    simp [RefreshToken, hTok, e1]
  · intro m
    refine ⟨?_, ?_, ?_, ?_, ?_, ?_⟩ <;> intro hc <;> cases hc

/-- Witness for C9 (amended) at the connectivity-failing store: Register
surfaces the opaque error, RefreshToken (on a fresh valid refresh token)
surfaces `ErrInvalidToken`. -/
theorem unexpected_store_error_propagation_witness :
    (Register downRepo 5 carolReq ()).1
      = Except.error (Err.unexpected "connection refused") ∧
    (RefreshToken downRepo cfg0 0 (generateRefreshToken cfg0 0 aliceActive) ()).1
      = Except.error Err.invalidToken := by
  have h := unexpected_store_error_propagation downRepo cfg0 0 5 carolReq
    { username := "alice", password := "right-horse" }
    (generateRefreshToken cfg0 0 aliceActive)
    { userID := "0123456789abcdef01234567", username := "alice", email := "",
      role := "", permissions := [], expiresAt := 604800, issuedAt := 0,
      subject := "0123456789abcdef01234567" }
    () "connection refused" (by decide) (by decide) (by decide) (by decide)
  exact ⟨h.1, h.2.2.1⟩

/-- C10: a refresh token issued by the service is accepted by ValidateToken
before its TTL elapses (same key, same HMAC verification path as access
tokens) and yields claims with empty email, empty role and empty permission
set; presented as a bearer token it passes JWTAuthMiddleware, yet every
RequirePermission check on its (empty) permission list fails, and every
RequireRole check over genuine roles fails on its empty role. -/
theorem refresh_token_authenticates_but_grants_no_authority
    (cfg : JWTConfig) (user : User) (tIssue tVerify : Nat)
    (h : tVerify < tIssue + cfg.refreshTokenDuration * 3600) :
    ValidateToken cfg.secretKey tVerify (generateRefreshToken cfg tIssue user) =
      Except.ok
        { userID := user.id, username := user.username, email := "",
          role := "", permissions := [] } ∧
    JWTAuthMiddleware cfg.secretKey tVerify
        (AuthHeader.twoParts "Bearer" (generateRefreshToken cfg tIssue user)) =
      MwResult.proceed
        { userID := user.id, username := user.username, email := "",
          role := "", permissions := [] } ∧
    (∀ required : Permission,
        RequirePermission required ([] : List Permission)
          = GateResult.forbidden "insufficient permissions") ∧
    (∀ allowed : List Role,
        (∀ r ∈ allowed, r ∈ [RoleAdmin, RoleManager, RoleSale, RoleStaff, RoleCustomer]) →
        RequireRole allowed "" = GateResult.forbidden "insufficient role") := by
  have hval : ValidateToken cfg.secretKey tVerify (generateRefreshToken cfg tIssue user) =
      Except.ok
        { userID := user.id, username := user.username, email := "",
          role := "", permissions := [] } := by
    simp [ValidateToken, generateRefreshToken, validateToken, Alg.isHMAC, h]
  refine ⟨hval, ?_, ?_, ?_⟩
  · simp only [JWTAuthMiddleware, hval]
    rw [if_pos (by decide)]
  · intro required
    rfl
  · intro allowed hsub
    have hmemn : ("" : Role) ∉ allowed := fun hmem => absurd (hsub "" hmem) (by decide)
    simp [RequireRole, hmemn]

/-- Witness for C10: alice's refresh token issued at 0 verifies at 100 with
empty email, role and permissions. -/
theorem refresh_token_authenticates_but_grants_no_authority_witness :
    (100 : Nat) < 0 + cfg0.refreshTokenDuration * 3600 ∧
    ValidateToken cfg0.secretKey 100 (generateRefreshToken cfg0 0 aliceActive) =
      Except.ok
        { userID := aliceActive.id, username := aliceActive.username,
          email := "", role := "", permissions := [] } :=
  ⟨by decide,
   (refresh_token_authenticates_but_grants_no_authority cfg0 aliceActive 0 100
      (by decide)).1⟩
